import Mathlib

/-!
Shallow embedding of the chat client (`static/js/chat.js` plus the auth
bootstrap in `static/js/auth.js`) and proofs about its behaviour.

DOM state is modelled as explicit Lean data: the sidebar is a list of
rendered items, the message thread is a list of entries, and browser
state (localStorage, location, the not-logged-in overlay) is a record.
Network calls are modelled by passing the response (or a transport
failure) as an explicit argument; the sequencing of externally
observable effects inside an operation is modelled as an event trace.
-/

namespace ChatJs

-- ─────────────────────────────────────────────
-- escapeHtml (chat.js lines 354-360)
-- ─────────────────────────────────────────────

/-- Characters of the entity `&amp;`. -/
def ampEnt : List Char := ['&', 'a', 'm', 'p', ';']

/-- Characters of the entity `&lt;`. -/
def ltEnt : List Char := ['&', 'l', 't', ';']

/-- Characters of the entity `&gt;`. -/
def gtEnt : List Char := ['&', 'g', 't', ';']

/-- Characters of the entity `&quot;`. -/
def quotEnt : List Char := ['&', 'q', 'u', 'o', 't', ';']

/-- `str.replace(/c/g, r)` for a single character `c`: every occurrence of
`c` is replaced by the string `r`, all other characters are kept. -/
def replaceAll (c : Char) (r : List Char) (s : List Char) : List Char :=
  s.flatMap (fun x => if x = c then r else [x])

/-- `escapeHtml` from chat.js: four sequential global replacements, `&` first,
then `<`, `>`, `"`. -/
def escapeHtmlL (s : List Char) : List Char :=
  replaceAll '"' quotEnt (replaceAll '>' gtEnt (replaceAll '<' ltEnt (replaceAll '&' ampEnt s)))

/-- `escapeHtml` lifted to `String`. -/
def escapeHtml (s : String) : String := ⟨escapeHtmlL s.data⟩

/-- Specification-side single-pass character map: each of the four listed
metacharacters goes to its entity, every other character to itself. -/
def escChar (c : Char) : List Char :=
  if c = '&' then ampEnt
  else if c = '<' then ltEnt
  else if c = '>' then gtEnt
  else if c = '"' then quotEnt
  else [c]

-- ─────────────────────────────────────────────
-- Data model
-- ─────────────────────────────────────────────

/-- Message roles (`"user"` / `"assistant"`). -/
inductive Role
  | user
  | assistant
deriving DecidableEq

/-- One child of the `messages-panel` container: a message bubble
(`appendMessage`), the typing indicator (`appendTypingIndicator`), or an
`empty-chat` note (`clearMainPanel` / `showMainError`). -/
inductive Entry
  | msg (role : Role) (content : String)
  | typing
  | emptyChat (isError : Bool) (text : String)
deriving DecidableEq

/-- A chat as it appears in the sidebar list payload. -/
structure Chat where
  id : String
  title : String
deriving DecidableEq

/-- A message inside a chat record. -/
structure Msg where
  role : Role
  content : String
deriving DecidableEq

/-- The full chat record returned by `GET /api/chats/{id}`. -/
structure ChatData where
  id : String
  title : String
  messages : List Msg
deriving DecidableEq

/-- One child of the `chat-list` container: the `empty-hint` row or a
`chat-item` row (title span + delete button, with an `active` class flag). -/
inductive SidebarItem
  | emptyHint (text : String)
  | chatRow (id : String) (titleHtml : String) (active : Bool)
deriving DecidableEq

/-- A `chat-item` row can be selected (its title opens the chat); the
`empty-hint` placeholder has no click handlers. -/
def selectable : SidebarItem → Bool
  | SidebarItem.chatRow _ _ _ => true
  | SidebarItem.emptyHint _ => false

/-- The `active` class flag of a rendered row. -/
def rowActive : SidebarItem → Bool
  | SidebarItem.chatRow _ _ a => a
  | SidebarItem.emptyHint _ => false

/-- The `data-id` of a rendered row (`none` for the placeholder). -/
def rowId : SidebarItem → Option String
  | SidebarItem.chatRow i _ _ => some i
  | SidebarItem.emptyHint _ => none

/-- The `innerHTML` produced for a thread entry: `appendMessage` interpolates
`escapeHtml(content)` into the bubble template, `showMainError` interpolates
`escapeHtml(msg)`, `clearMainPanel` and the typing indicator use literal
markup. -/
def bubbleHtml : Entry → String
  | Entry.msg _ content => "<div class=\"bubble\">" ++ escapeHtml content ++ "</div>"
  | Entry.typing => "<div class=\"bubble typing\"><span></span><span></span><span></span></div>"
  | Entry.emptyChat true text => "<div class=\"empty-chat error\">" ++ escapeHtml text ++ "</div>"
  | Entry.emptyChat false text => "<div class=\"empty-chat\">" ++ text ++ "</div>"

-- ─────────────────────────────────────────────
-- Sidebar rendering (chat.js lines 116-155)
-- ─────────────────────────────────────────────

/-- `renderChatList(chats)` (chat.js lines 125-155): first clears the
container (`list.innerHTML = ""`), then renders the `empty-hint` placeholder
when the array is empty, else one `chat-item` row per chat whose `active`
class is `chat.id === activeChatId` and whose title is `escapeHtml(chat.title)`.
`prev` is the container content before the call. -/
def renderChatList (prev : List SidebarItem) (chats : List Chat)
    (activeChatId : Option String) : List SidebarItem :=
  let cleared : List SidebarItem := []
  if chats.length = 0 then
    cleared ++ [SidebarItem.emptyHint "No chats yet. Start one!"]
  else
    cleared ++ chats.map (fun chat =>
      SidebarItem.chatRow chat.id (escapeHtml chat.title)
        (decide (activeChatId = some chat.id)))

/-- `loadChatList()` (chat.js lines 116-119): fetch `/api/chats` and render
`chats || []`; `resp` is the transport adapter's result. -/
def loadChatList (resp : Option (List Chat)) (prev : List SidebarItem)
    (activeChatId : Option String) : List SidebarItem :=
  renderChatList prev (resp.getD []) activeChatId

-- ─────────────────────────────────────────────
-- Lemmas about escapeHtml
-- ─────────────────────────────────────────────

theorem replaceAll_append (c : Char) (r : List Char) (a b : List Char) :
    replaceAll c r (a ++ b) = replaceAll c r a ++ replaceAll c r b := by
  simp [replaceAll]

theorem escapeHtmlL_append (a b : List Char) :
    escapeHtmlL (a ++ b) = escapeHtmlL a ++ escapeHtmlL b := by
  simp [escapeHtmlL, replaceAll_append]

theorem escapeHtmlL_single (c : Char) : escapeHtmlL [c] = escChar c := by
  by_cases h1 : c = '&'
  · subst h1; rfl
  · by_cases h2 : c = '<'
    · subst h2; rfl
    · by_cases h3 : c = '>'
      · subst h3; rfl
      · by_cases h4 : c = '"'
        · subst h4; rfl
        · simp [escapeHtmlL, replaceAll, escChar, h1, h2, h3, h4]

theorem escapeHtmlL_eq_flatMap (s : List Char) : escapeHtmlL s = s.flatMap escChar := by
  induction s with
  | nil => rfl
  | cons c s ih =>
    calc escapeHtmlL (c :: s) = escapeHtmlL ([c] ++ s) := rfl
    _ = escapeHtmlL [c] ++ escapeHtmlL s := escapeHtmlL_append _ _
    _ = escChar c ++ s.flatMap escChar := by rw [escapeHtmlL_single, ih]
    _ = (c :: s).flatMap escChar := by simp

theorem escChar_no_meta (x c : Char) (h : c ∈ escChar x) :
    c ≠ '<' ∧ c ≠ '>' ∧ c ≠ '"' := by
  unfold escChar at h
  by_cases h1 : x = '&'
  · simp [h1, ampEnt] at h
    rcases h with rfl | rfl | rfl | rfl | rfl <;> refine ⟨by decide, by decide, by decide⟩
  · by_cases h2 : x = '<'
    · simp [h1, h2, ltEnt] at h
      rcases h with rfl | rfl | rfl | rfl <;> refine ⟨by decide, by decide, by decide⟩
    · by_cases h3 : x = '>'
      · simp [h1, h2, h3, gtEnt] at h
        rcases h with rfl | rfl | rfl | rfl <;> refine ⟨by decide, by decide, by decide⟩
      · by_cases h4 : x = '"'
        · simp [h1, h2, h3, h4, quotEnt] at h
          rcases h with rfl | rfl | rfl | rfl | rfl | rfl <;>
            refine ⟨by decide, by decide, by decide⟩
        · simp [h1, h2, h3, h4] at h
          subst h
          exact ⟨h2, h3, h4⟩

/-- C1: `escapeHtml` escapes each of the listed HTML metacharacters `&`, `<`,
`>`, `"`: the four sequential global replaces are equivalent to mapping every
input character to its entity (other characters unchanged), so every
occurrence of a listed character appears in the output as its entity; the
output contains no raw `<`, `>` or `"`; every sidebar row renders its title
as `escapeHtml(chat.title)`, and every message bubble's markup interpolates
`escapeHtml(content)` — so titles and message content reach the DOM escaped,
never as markup. -/
theorem escapeHtml_spec (s : List Char) :
    (escapeHtmlL s = s.flatMap escChar)
    ∧ (∀ c, c ∈ escapeHtmlL s → c ≠ '<' ∧ c ≠ '>' ∧ c ≠ '"')
    ∧ (∀ prev chats activeChatId it, it ∈ renderChatList prev chats activeChatId →
        (∃ t, it = SidebarItem.emptyHint t) ∨
        (∃ chat, chat ∈ chats ∧
          it = SidebarItem.chatRow chat.id (escapeHtml chat.title)
            (decide (activeChatId = some chat.id))))
    ∧ (∀ role content, bubbleHtml (Entry.msg role content) =
        "<div class=\"bubble\">" ++ escapeHtml content ++ "</div>") := by
  refine ⟨escapeHtmlL_eq_flatMap s, ?_, ?_, ?_⟩
  · intro c hc
    rw [escapeHtmlL_eq_flatMap] at hc
    rcases List.mem_flatMap.mp hc with ⟨x, _, hcx⟩
    exact escChar_no_meta x c hcx
  · intro prev chats activeChatId it hit
    unfold renderChatList at hit
    by_cases hlen : chats.length = 0
    · simp [hlen] at hit
      exact Or.inl ⟨_, hit⟩
    · simp [hlen] at hit
      rcases hit with ⟨chat, hchat, rfl⟩
      exact Or.inr ⟨chat, hchat, rfl⟩
  · intro role content
    rfl

/-- Witness for C1 at a concrete input: the escaped form of `"<"` is the
entity `&lt;`, whose characters are none of the raw metacharacters. -/
theorem escapeHtml_spec_witness :
    ('&' : Char) ≠ '<' ∧ ('&' : Char) ≠ '>' ∧ ('&' : Char) ≠ '"' :=
  (escapeHtml_spec ['<']).2.1 '&' (by decide)

-- ─────────────────────────────────────────────
-- Transport adapter: apiFetch (chat.js lines 81-109)
-- ─────────────────────────────────────────────

/-- What the network hands back for one request: an HTTP response with a
status and a body (`none` when `res.json()` fails to parse), or a
transport-level failure (the `fetch` promise rejects). -/
inductive NetResult (α : Type)
  | response (status : Nat) (body : Option α)
  | netError
deriving DecidableEq

/-- Client-side browser state touched by the transport adapter and the auth
guard: the `localStorage` key/value pairs, the current location, and whether
the not-logged-in overlay is shown. -/
structure AuthState where
  store : List (String × String)
  location : String
  overlay : Bool
deriving DecidableEq

/-- `Response.ok`: status in the inclusive range 200-299. -/
def resOk (status : Nat) : Bool := 200 ≤ status && status ≤ 299

/-- `apiFetch(path, opts)` (chat.js lines 81-109), given the network's answer
for the request: on status 401 it clears `localStorage`, navigates to `/`,
and returns `null`; on any other non-ok status it returns `null`; on an ok
status it returns the parsed JSON body, or `null` when parsing fails (the
`try/catch` swallows the exception); on a network error it returns `null`.
The function is total — it never throws to its caller. -/
def apiFetch {α : Type} (st : AuthState) (net : NetResult α) : Option α × AuthState :=
  match net with
  | NetResult.netError => (none, st)
  | NetResult.response status body =>
    if status = 401 then
      (none, { st with store := [], location := "/" })
    else if resOk status = false then
      (none, st)
    else
      match body with
      | some payload => (some payload, st)
      | none => (none, st)

/-- `localStorage.getItem(key)`. -/
def lookupStore (store : List (String × String)) (key : String) : Option String :=
  (store.find? (fun kv => decide (kv.1 = key))).map (fun kv => kv.2)

/-- The payload of `GET /api/auth/me`. -/
structure Me where
  email : Option String
  uid : String
deriving DecidableEq

/-- The startup auth guard (chat.js lines 27-39): if no `fb_id_token` is in
`localStorage`, show the not-logged-in overlay and halt; otherwise call
`/api/auth/me` through the transport adapter; if it yields no result, show
the overlay and halt; otherwise proceed with the identity payload. -/
def authGuard (st : AuthState) (meNet : NetResult Me) : AuthState × Option Me :=
  match lookupStore st.store "fb_id_token" with
  | none => ({ st with overlay := true }, none)
  | some _ =>
    let r := apiFetch st meNet
    match r.1 with
    | none => ({ r.2 with overlay := true }, none)
    | some me => (r.2, some me)

/-- C3 counterexample: with a stored token, an identity check failing with
status 500 (identity check fails: the guard yields no identity and shows the
overlay) leaves the stored credential in place — local credential state is
not cleared, contradicting the claim for the startup-guard entry point. -/
theorem authGuard_not_cleared_cex :
    (authGuard ⟨[("fb_id_token", "tok")], "/c/", false⟩
      (NetResult.response 500 none)).2 = none
    ∧ (authGuard ⟨[("fb_id_token", "tok")], "/c/", false⟩
        (NetResult.response 500 none)).1.overlay = true
    ∧ (authGuard ⟨[("fb_id_token", "tok")], "/c/", false⟩
        (NetResult.response 500 none)).1.store = [("fb_id_token", "tok")]
    ∧ (authGuard ⟨[("fb_id_token", "tok")], "/c/", false⟩
        (NetResult.response 500 none)).1.store ≠ [] := by
  refine ⟨rfl, rfl, rfl, ?_⟩
  decide

/-- C3 (amended): every request through the transport adapter that receives
status 401 unconditionally clears all of `localStorage` and navigates to the
unauthenticated landing location `/`, and repeating the transition is
idempotent; the startup guard, whenever its identity check fails, reaches
the unauthenticated view (overlay shown), and additionally clears the
credential state when the failure itself was a 401. -/
theorem auth401_transition (st : AuthState) (body : Option Me) (net : NetResult Me) :
    ((apiFetch st (NetResult.response 401 body)).2.store = []
      ∧ (apiFetch st (NetResult.response 401 body)).2.location = "/"
      ∧ (apiFetch st (NetResult.response 401 body)).1 = none)
    ∧ (apiFetch (apiFetch st (NetResult.response 401 body)).2
        (NetResult.response 401 body)).2
        = (apiFetch st (NetResult.response 401 body)).2
    ∧ ((authGuard st net).2 = none → (authGuard st net).1.overlay = true)
    ∧ (lookupStore st.store "fb_id_token" ≠ none →
        (authGuard st (NetResult.response 401 body)).1.store = []
        ∧ (authGuard st (NetResult.response 401 body)).1.location = "/") := by
  refine ⟨⟨rfl, rfl, rfl⟩, rfl, ?_, ?_⟩
  · intro hfail
    unfold authGuard at *
    cases hkey : lookupStore st.store "fb_id_token" with
    | none => simp [hkey]
    | some tok =>
      simp [hkey] at hfail ⊢
      cases hres : (apiFetch st net).1 with
      | none => simp [hres]
      | some me => simp [hkey, hres] at hfail
  · intro hkey
    cases h : lookupStore st.store "fb_id_token" with
    | none => exact absurd h hkey
    | some tok => simp [authGuard, h, apiFetch]

/-- Witness for C3's amended theorem at a concrete state: a 401 against a
populated store clears it and lands on `/`; the guard at that state with a
401 identity check shows the overlay with the store cleared. -/
theorem auth401_transition_witness :
    (authGuard ⟨[("fb_id_token", "tok"), ("fb_uid", "u1")], "/c/", false⟩
      (NetResult.response 401 none)).1.overlay = true
    ∧ (authGuard ⟨[("fb_id_token", "tok"), ("fb_uid", "u1")], "/c/", false⟩
        (NetResult.response 401 none)).1.store = []
    ∧ (authGuard ⟨[("fb_id_token", "tok"), ("fb_uid", "u1")], "/c/", false⟩
        (NetResult.response 401 none)).1.location = "/" := by
  have h := auth401_transition
    ⟨[("fb_id_token", "tok"), ("fb_uid", "u1")], "/c/", false⟩
    (none : Option Me) (NetResult.response 401 (none : Option Me))
  refine ⟨?_, (h.2.2.2 (by decide)).1, (h.2.2.2 (by decide)).2⟩
  exact h.2.2.1 (by decide)

/-- C4: the transport adapter never throws (it is a total function of the
network outcome): it yields a payload exactly when the response is ok with a
parseable body; a network error, a malformed body, and any non-ok non-401
response all yield the `null` sentinel and leave browser state untouched. -/
theorem apiFetch_total {α : Type} (st : AuthState) (net : NetResult α) :
    (∀ a, (apiFetch st net).1 = some a ↔
      ∃ s, net = NetResult.response s (some a) ∧ resOk s = true ∧ s ≠ 401)
    ∧ (net = NetResult.netError → apiFetch st net = (none, st))
    ∧ (∀ s b, net = NetResult.response s b → resOk s = false → s ≠ 401 →
        apiFetch st net = (none, st))
    ∧ (∀ s, net = NetResult.response s none → (apiFetch st net).1 = none) := by
  refine ⟨?_, ?_, ?_, ?_⟩
  · intro a
    constructor
    · intro h
      cases net with
      | netError => simp [apiFetch] at h
      | response s b =>
        refine ⟨s, ?_⟩
        by_cases h401 : s = 401
        · simp [apiFetch, h401] at h
        · by_cases hok : resOk s = false
          · simp [apiFetch, h401, hok] at h
          · cases b with
            | none => simp [apiFetch, h401, hok] at h
            | some payload =>
              simp [apiFetch, h401, hok] at h
              subst h
              exact ⟨rfl, by simpa using hok, h401⟩
    · rintro ⟨s, rfl, hok, h401⟩
      simp [apiFetch, h401, hok]
  · rintro rfl
    rfl
  · rintro s b rfl hok h401
    cases b <;> simp [apiFetch, h401, hok]
  · rintro s rfl
    by_cases h401 : s = 401
    · simp [apiFetch, h401]
    · by_cases hok : resOk s = false <;> simp [apiFetch, h401, hok]

/-- Witness for C4 at concrete outcomes: a 200 response with payload is
returned as the payload; a 500 response yields the sentinel unchanged-state
pair; a network error likewise. -/
theorem apiFetch_total_witness :
    (apiFetch ⟨[], "/c/", false⟩ (NetResult.response 200 (some (42 : Nat)))).1 = some 42
    ∧ apiFetch ⟨[], "/c/", false⟩ (NetResult.response 500 (none : Option Nat))
        = (none, ⟨[], "/c/", false⟩)
    ∧ apiFetch ⟨[], "/c/", false⟩ (NetResult.netError (α := Nat))
        = (none, ⟨[], "/c/", false⟩) := by
  refine ⟨?_, ?_, ?_⟩
  · exact ((apiFetch_total ⟨[], "/c/", false⟩
      (NetResult.response 200 (some (42 : Nat)))).1 42).mpr
      ⟨200, rfl, by decide, by decide⟩
  · exact (apiFetch_total ⟨[], "/c/", false⟩
      (NetResult.response 500 (none : Option Nat))).2.2.1 500 none rfl
      (by decide) (by decide)
  · exact (apiFetch_total ⟨[], "/c/", false⟩
      (NetResult.netError (α := Nat))).2.1 rfl

-- ─────────────────────────────────────────────
-- UI state, openChat (chat.js lines 204-241)
-- ─────────────────────────────────────────────

/-- The chat page's mutable UI state: the global `activeChatId`, the
browser-visible location, the sidebar container, the messages panel, and the
visibility of the input bar. -/
structure UiState where
  activeChatId : Option String
  location : String
  sidebar : List SidebarItem
  panel : List Entry
  inputAreaVisible : Bool
deriving DecidableEq

/-- The `querySelectorAll(".chat-item")` pass toggling the `active` class on
each row by `el.dataset.id === chatId`; the `empty-hint` placeholder is not a
`.chat-item` and is untouched. -/
def highlightRows (items : List SidebarItem) (chatId : String) : List SidebarItem :=
  items.map (fun it =>
    match it with
    | SidebarItem.chatRow i t _ => SidebarItem.chatRow i t (decide (i = chatId))
    | other => other)

/-- The part of `openChat(chatId)` (chat.js lines 204-213) performed before
the network fetch completes: set `activeChatId`, push `/c/<chatId>` onto the
history, and re-derive the sidebar highlight. -/
def openChatPre (st : UiState) (chatId : String) : UiState :=
  { st with activeChatId := some chatId,
            location := "/c/" ++ chatId,
            sidebar := highlightRows st.sidebar chatId }

/-- `openChat(chatId)` (chat.js lines 204-234): after the pre-fetch updates,
fetch `/api/chats/<chatId>`; on no result render the inline error in the
thread area; on success clear the panel, render every message in order, and
reveal the input bar. -/
def openChat (st : UiState) (chatId : String) (resp : Option ChatData) : UiState :=
  let st1 := openChatPre st chatId
  match resp with
  | none => { st1 with panel := [Entry.emptyChat true "Could not load this chat."] }
  | some chat =>
    { st1 with panel := chat.messages.map (fun m => Entry.msg m.role m.content),
               inputAreaVisible := true }

theorem highlightRows_countP (items : List SidebarItem) (chatId : String) :
    (highlightRows items chatId).countP rowActive
      = items.countP (fun it => decide (rowId it = some chatId)) := by
  unfold highlightRows
  rw [List.countP_map]
  apply List.countP_congr
  intro it _
  cases it with
  | chatRow i t a => simp [rowId, rowActive, Function.comp]
  | emptyHint t => simp [rowId, rowActive, Function.comp]

theorem highlightRows_active_id (items : List SidebarItem) (chatId : String)
    (it : SidebarItem) (hit : it ∈ highlightRows items chatId)
    (ha : rowActive it = true) : rowId it = some chatId := by
  unfold highlightRows at hit
  rcases List.mem_map.mp hit with ⟨src, _, rfl⟩
  cases src with
  | chatRow i t a =>
    simp [rowActive] at ha
    simp [rowId, ha]
  | emptyHint t => simp [rowActive] at ha

/-- C5: when the sidebar has exactly one row whose identifier is `chatId`,
then already before the fetch completes (`openChatPre`) the location is
`/c/<chatId>`, the active identifier is `chatId`, and exactly one row is
highlighted active — a row whose identifier is `chatId`; a successful
completion of `openChat` keeps the location, sidebar and active identifier
of the pre-fetch state. -/
theorem openChat_location_active (st : UiState) (chatId : String) (chat : ChatData)
    (h : st.sidebar.countP (fun it => decide (rowId it = some chatId)) = 1) :
    (openChatPre st chatId).location = "/c/" ++ chatId
    ∧ (openChatPre st chatId).activeChatId = some chatId
    ∧ (openChatPre st chatId).sidebar.countP rowActive = 1
    ∧ (∀ it, it ∈ (openChatPre st chatId).sidebar → rowActive it = true →
        rowId it = some chatId)
    ∧ (openChat st chatId (some chat)).location = (openChatPre st chatId).location
    ∧ (openChat st chatId (some chat)).sidebar = (openChatPre st chatId).sidebar
    ∧ (openChat st chatId (some chat)).activeChatId = some chatId := by
  refine ⟨rfl, rfl, ?_, ?_, rfl, rfl, rfl⟩
  · rw [show (openChatPre st chatId).sidebar = highlightRows st.sidebar chatId from rfl,
      highlightRows_countP]
    exact h
  · intro it hit ha
    exact highlightRows_active_id st.sidebar chatId it hit ha

/-- Witness for C5 at a concrete state: a two-row sidebar with a unique row
`"b"`; opening `"b"` highlights exactly that row and encodes it in the
location. -/
theorem openChat_location_active_witness :
    (openChatPre ⟨none, "/c/", [SidebarItem.chatRow "a" "A" true,
        SidebarItem.chatRow "b" "B" false], [], false⟩ "b").location = "/c/b"
    ∧ (openChatPre ⟨none, "/c/", [SidebarItem.chatRow "a" "A" true,
        SidebarItem.chatRow "b" "B" false], [], false⟩ "b").sidebar.countP rowActive = 1 := by
  have h := openChat_location_active
    ⟨none, "/c/", [SidebarItem.chatRow "a" "A" true,
      SidebarItem.chatRow "b" "B" false], [], false⟩ "b"
    ⟨"b", "B", []⟩ (by decide)
  exact ⟨h.1, h.2.2.1⟩

-- ─────────────────────────────────────────────
-- deleteChat (chat.js lines 179-193) and clearMainPanel (lines 236-241)
-- ─────────────────────────────────────────────

/-- The `empty-chat` placeholder text set by `clearMainPanel`. -/
def emptyChatText : String := "Select or create a chat to get started."

/-- `clearMainPanel()` (chat.js lines 236-241): replace the thread view with
the empty-state placeholder and hide the input bar. -/
def clearMainPanel (st : UiState) : UiState :=
  { st with panel := [Entry.emptyChat false emptyChatText], inputAreaVisible := false }

/-- Externally observable effects of `deleteChat`, in order of occurrence. -/
inductive DelEv
  | netDelete (id : String)
  | clearActive
  | clearPanel
  | pushRoot
  | reloadList
deriving DecidableEq

/-- `deleteChat(chatId)` (chat.js lines 179-193): abort unless the user
confirms; issue the DELETE through the transport adapter and abort on no
result; if the deleted chat is the active one, clear `activeChatId`, clear
the main panel, and push the chat root `/c/` — then reload the list
unconditionally. The reload's own fetch-and-render is `loadChatList`; here
it is recorded as the `reloadList` event. Returns the new state and the
event trace. -/
def deleteChat (st : UiState) (chatId : String) (confirmed : Bool)
    (resp : Option Unit) : UiState × List DelEv :=
  if confirmed = false then (st, [])
  else
    match resp with
    | none => (st, [DelEv.netDelete chatId])
    | some _ =>
      if st.activeChatId = some chatId then
        let st1 := clearMainPanel { st with activeChatId := none }
        let st2 := { st1 with location := "/c/" }
        (st2, [DelEv.netDelete chatId, DelEv.clearActive, DelEv.clearPanel,
               DelEv.pushRoot, DelEv.reloadList])
      else
        (st, [DelEv.netDelete chatId, DelEv.reloadList])

/-- C6: a confirmed successful `deleteChat` of the active chat clears the
active identifier, resets the location to the chat root, and puts the
empty-state placeholder in the thread view, and its trace ends with the
unconditional list reload, which follows all three state changes; when the
deleted chat was not active, the state is untouched and the reload still
happens; on failure (no result) the state is unchanged and no reload
happens; without confirmation nothing at all happens. -/
theorem deleteChat_spec (st : UiState) (chatId : String) (resp : Option Unit) :
    (st.activeChatId = some chatId →
      (deleteChat st chatId true (some ())).1.activeChatId = none
      ∧ (deleteChat st chatId true (some ())).1.location = "/c/"
      ∧ (deleteChat st chatId true (some ())).1.panel
          = [Entry.emptyChat false emptyChatText]
      ∧ (deleteChat st chatId true (some ())).1.inputAreaVisible = false
      ∧ (deleteChat st chatId true (some ())).2
          = [DelEv.netDelete chatId, DelEv.clearActive, DelEv.clearPanel,
             DelEv.pushRoot, DelEv.reloadList])
    ∧ (st.activeChatId ≠ some chatId →
        deleteChat st chatId true (some ())
          = (st, [DelEv.netDelete chatId, DelEv.reloadList]))
    ∧ DelEv.reloadList ∈ (deleteChat st chatId true (some ())).2
    ∧ (deleteChat st chatId true (some ())).2.getLast? = some DelEv.reloadList
    ∧ deleteChat st chatId true none = (st, [DelEv.netDelete chatId])
    ∧ deleteChat st chatId false resp = (st, []) := by
  refine ⟨?_, ?_, ?_, ?_, rfl, rfl⟩
  · intro hact
    simp [deleteChat, clearMainPanel, hact]
  · intro hact
    simp [deleteChat, hact]
  · by_cases hact : st.activeChatId = some chatId <;> simp [deleteChat, hact]
  · by_cases hact : st.activeChatId = some chatId <;> simp [deleteChat, hact]

/-- Witness for C6 at a concrete state whose active chat `"a"` is deleted:
identifier cleared, location at the chat root, placeholder shown, reload
last. -/
theorem deleteChat_spec_witness :
    (deleteChat ⟨some "a", "/c/a", [], [], true⟩ "a" true (some ())).1.activeChatId = none
    ∧ (deleteChat ⟨some "a", "/c/a", [], [], true⟩ "a" true (some ())).1.location = "/c/"
    ∧ (deleteChat ⟨some "a", "/c/a", [], [], true⟩ "a" true (some ())).1.panel
        = [Entry.emptyChat false emptyChatText]
    ∧ (deleteChat ⟨some "a", "/c/a", [], [], true⟩ "a" true
        (some ())).2.getLast? = some DelEv.reloadList := by
  have h := deleteChat_spec ⟨some "a", "/c/a", [], [], true⟩ "a" (some ())
  have h1 := h.1 (by decide)
  exact ⟨h1.1, h1.2.1, h1.2.2.1, h.2.2.2.1⟩

-- ─────────────────────────────────────────────
-- sendMessage (chat.js lines 248-288)
-- ─────────────────────────────────────────────

/-- Whitespace for JavaScript `String.prototype.trim` (ECMA WhiteSpace and
LineTerminator code points that occur in practice). -/
def jsWhitespace (c : Char) : Bool :=
  c = ' ' || c = '\t' || c = '\n' || c = '\r' ||
  c = '\x0b' || c = '\x0c' || c = '\u00A0' || c = '\uFEFF'

/-- `String.prototype.trim`: drop leading and trailing whitespace. -/
def trimJsL (s : List Char) : List Char :=
  ((s.dropWhile jsWhitespace).reverse.dropWhile jsWhitespace).reverse

/-- `input.value.trim()` lifted to `String`. -/
def trimJs (s : String) : String := ⟨trimJsL s.data⟩

/-- The text of the error bubble appended when the send request fails. -/
def errorReplyText : String := "⚠ Error: could not get a reply."

/-- Externally observable effects of `sendMessage`, in order of occurrence. -/
inductive Ev
  | append (e : Entry)
  | setInput (v : String)
  | scroll
  | netPost (path : String) (body : String)
  | removeTypingNode
  | netGetChats
  | rehighlight (id : String)
deriving DecidableEq

/-- `sendMessage()` (chat.js lines 248-288) as its trace of effects, given
the transport adapter's result for the POST (`resp`, carrying
`result.assistant` on success): return immediately when there is no active
chat or the trimmed input is empty; otherwise append the user bubble, clear
the input, scroll, append the typing indicator, POST the trimmed message,
remove the typing node once the response is in, then either append the error
bubble (no result) or append the assistant bubble, reload the chat list and
re-apply the highlight (success), and scroll again. -/
def sendMessageTrace (activeChatId : Option String) (inputValue : String)
    (resp : Option String) : List Ev :=
  match activeChatId with
  | none => []
  | some chatId =>
    let message := trimJs inputValue
    if message = "" then []
    else
      [Ev.append (Entry.msg Role.user message),
       Ev.setInput "",
       Ev.scroll,
       Ev.append Entry.typing,
       Ev.netPost ("/api/chats/" ++ chatId ++ "/messages") message,
       Ev.removeTypingNode]
      ++ (match resp with
          | none => [Ev.append (Entry.msg Role.assistant errorReplyText)]
          | some reply => [Ev.append (Entry.msg Role.assistant reply),
                           Ev.netGetChats, Ev.rehighlight chatId])
      ++ [Ev.scroll]

/-- How one effect acts on the messages panel: appends add a child at the
end; `removeTypingNode` detaches the typing indicator node (`typingEl` is
the unique typing child in this flow); the other effects do not touch the
panel. -/
def applyEv (panel : List Entry) : Ev → List Entry
  | Ev.append e => panel ++ [e]
  | Ev.removeTypingNode => panel.eraseP (fun e => decide (e = Entry.typing))
  | _ => panel

/-- The messages panel after a trace of effects. -/
def runPanel (panel : List Entry) (evs : List Ev) : List Entry :=
  evs.foldl applyEv panel

/-- Whether an effect is a network request. -/
def isNetEv : Ev → Bool
  | Ev.netPost _ _ => true
  | Ev.netGetChats => true
  | _ => false

/-- The reply content rendered after the POST: the assistant text on
success, the fixed error text on failure. -/
def respText : Option String → String
  | none => errorReplyText
  | some reply => reply

theorem eraseP_typing_snoc (l : List Entry) (h : Entry.typing ∉ l) :
    (l ++ [Entry.typing]).eraseP (fun e => decide (e = Entry.typing)) = l := by
  induction l with
  | nil => rfl
  | cons a l ih =>
    have ha : ¬(a = Entry.typing) := fun h' => h (h' ▸ List.mem_cons_self a l)
    have hl : Entry.typing ∉ l := fun hm => h (List.mem_cons_of_mem a hm)
    simp [List.eraseP_cons, ha, ih hl]

/-- C2: a send with an active chat and non-blank trimmed text produces, in
order: first the user bubble (panel after one effect), then the typing
indicator while the POST is outstanding (panels after four and five
effects), its removal once the response is available (panel after six
effects), and exactly one final appended bubble — the assistant reply on
success, the error bubble on failure; the typing indicator is absent from
the panel before the typing phase and after the reply/error bubble. -/
theorem sendMessage_sequence (p : List Entry) (chatId inputValue : String)
    (resp : Option String) (hp : Entry.typing ∉ p) (hm : trimJs inputValue ≠ "") :
    runPanel p ((sendMessageTrace (some chatId) inputValue resp).take 1)
      = p ++ [Entry.msg Role.user (trimJs inputValue)]
    ∧ Entry.typing ∉ p ++ [Entry.msg Role.user (trimJs inputValue)]
    ∧ runPanel p ((sendMessageTrace (some chatId) inputValue resp).take 4)
        = p ++ [Entry.msg Role.user (trimJs inputValue), Entry.typing]
    ∧ runPanel p ((sendMessageTrace (some chatId) inputValue resp).take 5)
        = p ++ [Entry.msg Role.user (trimJs inputValue), Entry.typing]
    ∧ runPanel p ((sendMessageTrace (some chatId) inputValue resp).take 6)
        = p ++ [Entry.msg Role.user (trimJs inputValue)]
    ∧ runPanel p (sendMessageTrace (some chatId) inputValue resp)
        = p ++ [Entry.msg Role.user (trimJs inputValue),
                Entry.msg Role.assistant (respText resp)]
    ∧ Entry.typing ∉ runPanel p (sendMessageTrace (some chatId) inputValue resp)
    ∧ (resp = none → respText resp = errorReplyText)
    ∧ (∀ reply, resp = some reply → respText resp = reply) := by
  have herase : (p ++ [Entry.msg Role.user (trimJs inputValue),
      Entry.typing]).eraseP (fun e => decide (e = Entry.typing))
      = p ++ [Entry.msg Role.user (trimJs inputValue)] := by
    have hnot : Entry.typing ∉ p ++ [Entry.msg Role.user (trimJs inputValue)] := by
      intro hmem
      rcases List.mem_append.mp hmem with h1 | h2
      · exact hp h1
      · simp at h2
    simpa using eraseP_typing_snoc (p ++ [Entry.msg Role.user (trimJs inputValue)]) hnot
  refine ⟨?_, ?_, ?_, ?_, ?_, ?_, ?_, ?_, ?_⟩
  · simp [sendMessageTrace, hm, runPanel, applyEv]
  · intro hmem
    rcases List.mem_append.mp hmem with h1 | h2
    · exact hp h1
    · simp at h2
  · simp [sendMessageTrace, hm, runPanel, applyEv]
  · cases resp <;> simp [sendMessageTrace, hm, runPanel, applyEv]
  · cases resp <;>
      simpa [sendMessageTrace, hm, runPanel, applyEv] using herase
  · cases resp <;>
      · simp [sendMessageTrace, hm, runPanel, applyEv, respText]
        rw [herase]
        simp
  · cases resp <;>
      · simp [sendMessageTrace, hm, runPanel, applyEv, respText]
        rw [herase]
        simp [hp]
  · rintro rfl
    rfl
  · rintro reply rfl
    rfl

/-- Witness for C2 at a concrete send: panel `[]`, input `" hi "`, reply
`"hello"`; the final panel is the user bubble `"hi"` followed immediately by
the assistant bubble `"hello"`, with no typing indicator remaining. -/
theorem sendMessage_sequence_witness :
    runPanel [] (sendMessageTrace (some "a") " hi " (some "hello"))
      = [Entry.msg Role.user (trimJs " hi "), Entry.msg Role.assistant "hello"]
    ∧ Entry.typing ∉ runPanel [] (sendMessageTrace (some "a") " hi " (some "hello"))
    ∧ trimJs " hi " = "hi" := by
  have h := sendMessage_sequence [] "a" " hi " (some "hello")
    (by decide) (by decide)
  refine ⟨?_, h.2.2.2.2.2.2.1, by decide⟩
  have h6 := h.2.2.2.2.2.1
  simpa [respText] using h6

/-- C7: with no active chat, or with input that trims to the empty string,
`sendMessage` is a no-op — its trace is empty, so it issues zero network
requests and leaves any messages panel unchanged. -/
theorem sendMessage_noop (inputValue : String) (resp : Option String)
    (chatId : String) (p : List Entry) (hm : trimJs inputValue = "") :
    sendMessageTrace none inputValue resp = []
    ∧ sendMessageTrace (some chatId) inputValue resp = []
    ∧ (sendMessageTrace none inputValue resp).countP isNetEv = 0
    ∧ (sendMessageTrace (some chatId) inputValue resp).countP isNetEv = 0
    ∧ runPanel p (sendMessageTrace none inputValue resp) = p
    ∧ runPanel p (sendMessageTrace (some chatId) inputValue resp) = p := by
  refine ⟨rfl, ?_, rfl, ?_, rfl, ?_⟩ <;> simp [sendMessageTrace, hm, runPanel]

/-- Witness for C7 at concrete inputs: whitespace-only input `"  \n "` on an
active chat produces the empty trace; so does any input with no active
chat. -/
theorem sendMessage_noop_witness :
    sendMessageTrace (some "a") "  \n " (some "hello") = []
    ∧ sendMessageTrace none "hi" none = [] := by
  have h := sendMessage_noop "  \n " (some "hello") "a" [] (by decide)
  exact ⟨h.2.1, h.1⟩

-- ─────────────────────────────────────────────
-- Startup URL routing (chat.js lines 59-64)
-- ─────────────────────────────────────────────

/-- `String.prototype.split(sep)` for a one-character separator, on the
character list of the string: splitting the empty string yields one empty
segment, exactly as in JavaScript. -/
def splitChar (sep : Char) : List Char → List (List Char)
  | [] => [[]]
  | c :: cs =>
    match splitChar sep cs with
    | [] => if c = sep then [[], []] else [[c]]
    | r :: rs => if c = sep then [] :: r :: rs else (c :: r) :: rs

/-- The path segments used by the startup router:
`window.location.pathname.split("/").filter(Boolean)` — empty segments are
falsy and dropped. -/
def pathSegments (pathname : String) : List (List Char) :=
  (splitChar '/' pathname.data).filter (fun seg => decide (seg ≠ []))

/-- The startup routing step (chat.js lines 59-64): if the filtered segments
are exactly `["c", <id>]`, open that identifier (returned here as the
argument passed to `openChat`); otherwise open nothing. -/
def routeStartup (pathname : String) : Option String :=
  let pathParts := pathSegments pathname
  if pathParts.length = 2 ∧ pathParts.getD 0 [] = ['c'] then
    some (String.mk (pathParts.getD 1 []))
  else
    none

/-- C8: the startup router auto-opens an identifier exactly when the
location's non-empty path segments are the chat root `c` followed by one
identifier segment, and it opens that identifier; a location whose segments
are the chat root alone opens nothing. -/
theorem routeStartup_spec (pathname : String) :
    (∀ id, routeStartup pathname = some id ↔
      ∃ seg, pathSegments pathname = [['c'], seg] ∧ id = String.mk seg)
    ∧ (pathSegments pathname = [['c']] → routeStartup pathname = none) := by
  constructor
  · intro id
    constructor
    · intro h
      rcases hseg : pathSegments pathname with - | ⟨a, rest⟩
      · simp [routeStartup, hseg] at h
      · rcases rest with - | ⟨b, rest2⟩
        · simp [routeStartup, hseg] at h
        · rcases rest2 with - | ⟨c, rest3⟩
          · by_cases ha : a = ['c']
            · subst ha
              simp [routeStartup, hseg] at h
              exact ⟨b, rfl, h.symm⟩
            · simp [routeStartup, hseg, ha] at h
          · have hnone : routeStartup pathname = none := by
              unfold routeStartup
              rw [hseg, if_neg]
              rintro ⟨h2, -⟩
              simp at h2
            rw [hnone] at h
            exact Option.noConfusion h
    · rintro ⟨seg, hseg, rfl⟩
      unfold routeStartup
      rw [hseg]
      simp
  · intro hroot
    unfold routeStartup
    rw [hroot]
    simp

/-- Witness for C8 at concrete locations: `/c/abc` auto-opens `abc`; the
chat root `/c/` opens nothing. -/
theorem routeStartup_spec_witness :
    routeStartup "/c/abc" = some "abc" ∧ routeStartup "/c/" = none := by
  constructor
  · exact ((routeStartup_spec "/c/abc").1 "abc").mpr
      ⟨['a', 'b', 'c'], by decide, by decide⟩
  · exact (routeStartup_spec "/c/").2 (by decide)

-- ─────────────────────────────────────────────
-- Sidebar rendering properties (C9, C10)
-- ─────────────────────────────────────────────

/-- C9: when the chat set is empty or the list fetch yields no result,
`loadChatList` renders exactly one row — the `no chats` placeholder, which
is not selectable — regardless of the previous container content and of the
active identifier; a list-fetch failure renders identically to an empty
list. -/
theorem loadChatList_empty_placeholder (prev : List SidebarItem)
    (activeChatId : Option String) :
    loadChatList none prev activeChatId
      = [SidebarItem.emptyHint "No chats yet. Start one!"]
    ∧ loadChatList (some []) prev activeChatId
        = [SidebarItem.emptyHint "No chats yet. Start one!"]
    ∧ loadChatList none prev activeChatId = loadChatList (some []) prev activeChatId
    ∧ (loadChatList none prev activeChatId).length = 1
    ∧ (loadChatList none prev activeChatId).countP selectable = 0 := by
  refine ⟨rfl, rfl, rfl, rfl, rfl⟩

/-- C10: `renderChatList` clears the container before rendering, so it is
idempotent and independent of the previous content — rendering twice with
the same arguments equals rendering once, a refresh never duplicates rows,
and the number of rendered rows is the number of chats (exactly one
placeholder when there are none). -/
theorem renderChatList_idempotent (prev : List SidebarItem) (chats : List Chat)
    (activeChatId : Option String) :
    (renderChatList (renderChatList prev chats activeChatId) chats activeChatId
      = renderChatList prev chats activeChatId)
    ∧ (∀ prev2, renderChatList prev2 chats activeChatId
        = renderChatList prev chats activeChatId)
    ∧ ((renderChatList prev chats activeChatId).length
        = if chats.length = 0 then 1 else chats.length) := by
  refine ⟨rfl, fun prev2 => rfl, ?_⟩
  by_cases h : chats.length = 0 <;> simp [renderChatList, h]

end ChatJs
